import Mathlib

/-!
Verification of the shutdown / configuration / handler behaviour of the
`rust-hello-api` service (`src/main.rs`), via a shallow embedding of the
relevant Rust code in Lean.

The embedding covers:
* Rust integer parsing of environment variables (`str::parse::<u16>` /
  `str::parse::<u64>` semantics: optional leading `+`, ASCII digits only,
  in-range check), with the `unwrap_or` defaulting chain of `main`;
* the `shutdown_signal` function as a small trace interpreter over its
  three sequential steps (the `tokio::select!` over Ctrl+C / SIGTERM,
  the log line, and the grace-period sleep);
* the control flow of `main` (DATABASE_URL fail-fast, bind, serve with
  graceful shutdown, warn-on-error, clean-exit log) as an event trace
  together with the process outcome;
* the three HTTP handlers and the serde serialization of their response
  structs into a small JSON model.
-/

/- ### Rust integer parsing (`str::parse::<uN>`) -/

/-- Value of a non-empty all-ASCII-digit character list, `none` otherwise.
This is the core of Rust's `from_str_radix` at radix 10 for unsigned types
(before the range check). -/
def digitsVal (cs : List Char) : Option Nat :=
  if cs ≠ [] ∧ cs.all Char.isDigit then
    some (cs.foldl (fun a c => a * 10 + (c.toNat - 48)) 0)
  else
    none

/-- Rust's unsigned integer parsing accepts one optional leading `+`. -/
def stripPlus (cs : List Char) : List Char :=
  match cs with
  | [] => []
  | c :: rest => if c = '+' then rest else c :: rest

/-- Rust `str::parse` for an unsigned integer type whose maximal value is
`bound`: optional `+`, then a non-empty digit string whose value fits. -/
def parseUnsigned (bound : Nat) (s : String) : Option Nat :=
  (digitsVal (stripPlus s.data)).bind fun v => if v ≤ bound then some v else none

/-- Rust `str::parse::<u16>` (used for `APP_PORT`). -/
def parseU16Rust (s : String) : Option Nat :=
  parseUnsigned 65535 s

/-- Rust `str::parse::<u64>` (used for `GRACEFUL_SHUTDOWN_TIMEOUT`). -/
def parseU64Rust (s : String) : Option Nat :=
  parseUnsigned 18446744073709551615 s

/-- Mathematical reading of a string as a signed decimal integer (optional
`-` or `+` sign, digits), used only to state which strings "parse as an
integer" in claims about out-of-range values. -/
def parseIntSpec (s : String) : Option Int :=
  match s.data with
  | [] => none
  | c :: rest =>
    if c = '-' then (digitsVal rest).map (fun n : Nat => -(n : Int))
    else if c = '+' then (digitsVal rest).map (fun n : Nat => (n : Int))
    else (digitsVal (c :: rest)).map (fun n : Nat => (n : Int))

/- ### Environment-variable configuration (`main`, lines 65-83) -/

/-- The process environment: a partial map from variable name to value. -/
def Env : Type := String → Option String

/-- `env::var("APP_PORT").unwrap_or_else(|_| "8080".into()).parse::<u16>().unwrap_or(8080)`. -/
def appPort (env : Env) : Nat :=
  (parseU16Rust ((env "APP_PORT").getD "8080")).getD 8080

/-- `env::var("GRACEFUL_SHUTDOWN_TIMEOUT").unwrap_or_else(|_| "10".into()).parse::<u64>().unwrap_or(10)`. -/
def shutdownTimeout (env : Env) : Nat :=
  (parseU64Rust ((env "GRACEFUL_SHUTDOWN_TIMEOUT").getD "10")).getD 10

/- ### The shutdown coordinator (`shutdown_signal`, lines 145-170) -/

/-- The two termination triggers raced by `tokio::select!`. -/
inductive Trigger
  | ctrlC
  | sigterm
  deriving DecidableEq, Repr

/-- One execution environment for `shutdown_signal`: at which instant (if
ever) each external signal arrives, whether the platform is unix (on
non-unix the SIGTERM branch is `std::future::pending`), and whether the
two handler installations succeed (`signal::ctrl_c()` and
`signal(SignalKind::terminate())`, each followed by `.expect`). -/
structure Schedule where
  ctrlCTime : Option Nat
  sigtermTime : Option Nat
  unixPlatform : Bool
  ctrlCInstallOk : Bool
  sigtermInstallOk : Bool
  deriving DecidableEq, Repr

/-- `FiresAt sch tg t`: trigger `tg` fires at instant `t` under `sch`.  On a
non-unix platform the SIGTERM branch is `std::future::pending::<()>()` and
never fires. -/
inductive FiresAt (sch : Schedule) : Trigger → Nat → Prop
  | ctrlC {t : Nat} : sch.ctrlCTime = some t → FiresAt sch .ctrlC t
  | sigterm {t : Nat} :
      sch.unixPlatform = true → sch.sigtermTime = some t → FiresAt sch .sigterm t

/-- The instant at which `tokio::select!` resolves: the first instant at
which any live branch fires, `none` if no live branch ever fires. -/
def selectTime (sch : Schedule) : Option Nat :=
  match sch.ctrlCTime, (if sch.unixPlatform then sch.sigtermTime else none) with
  | none, none => none
  | some a, none => some a
  | none, some b => some b
  | some a, some b => some (min a b)

/-- Observable events of one `shutdown_signal` execution, timestamped. -/
inductive Ev
  | selectDone
  | logDrain (secs : Nat)
  | sleepBegin
  | sleepEnd
  deriving DecidableEq, Repr

/-- The ways one statement of `shutdown_signal` can misbehave: a failed
handler installation makes the corresponding `.expect` panic. -/
inductive SigErr
  | ctrlCInstallFailed
  | sigtermInstallFailed
  deriving DecidableEq, Repr

/-- Result of running (a prefix of) an async body: normal completion,
panic, or divergence (the await never resolves). -/
inductive Res (α : Type)
  | ok (a : α)
  | panicked (e : SigErr)
  | diverge
  deriving DecidableEq, Repr

/-- Interpreter state: the current instant and the events so far. -/
structure St where
  clock : Nat
  events : List (Nat × Ev)
  deriving DecidableEq, Repr

/-- The three sequential statements of `shutdown_signal`'s body. -/
inductive Stmt
  | select
  | logDrain (secs : Nat)
  | sleep (secs : Nat)
  deriving DecidableEq, Repr

/-- One step of the interpreter.  The `select` step first polls the two
branches (a failed handler installation panics at this first poll), then
suspends until the first live trigger fires; `sleep d` advances the clock
by `d`. -/
def execStmt (sch : Schedule) : Stmt → St → Res St
  | .select, s =>
      if !sch.ctrlCInstallOk then .panicked .ctrlCInstallFailed
      else if sch.unixPlatform && !sch.sigtermInstallOk then .panicked .sigtermInstallFailed
      else
        match selectTime sch with
        | none => .diverge
        | some t =>
            .ok ⟨max s.clock t, s.events ++ [(max s.clock t, .selectDone)]⟩
  | .logDrain secs, s =>
      .ok ⟨s.clock, s.events ++ [(s.clock, .logDrain secs)]⟩
  | .sleep d, s =>
      .ok ⟨s.clock + d, s.events ++ [(s.clock, .sleepBegin), (s.clock + d, .sleepEnd)]⟩

/-- Sequential composition: a panic or divergence stops the run. -/
def execProg (sch : Schedule) : List Stmt → St → Res St
  | [], s => .ok s
  | stmt :: rest, s =>
      match execStmt sch stmt s with
      | .ok s' => execProg sch rest s'
      | .panicked e => .panicked e
      | .diverge => .diverge

/-- The body of `shutdown_signal(timeout_secs)`: the select, the log line,
and the grace-period sleep, in program order. -/
def shutdownBody (timeoutSecs : Nat) : List Stmt :=
  [.select, .logDrain timeoutSecs, .sleep timeoutSecs]

/-- A complete run of `shutdown_signal(timeout_secs)` from instant 0. -/
def shutdownRun (sch : Schedule) (timeoutSecs : Nat) : Res St :=
  execProg sch (shutdownBody timeoutSecs) ⟨0, []⟩

/- ### JSON model and HTTP handlers (lines 36-46, 119-139) -/

/-- The fragment of JSON the handlers produce. -/
inductive Json
  | null
  | str (s : String)
  | obj (fields : List (String × Json))

/-- `struct ApiResponse<T> \x7b status, message, data \x7d` with `&'static str`
fields modelled as `String`. -/
structure ApiResponse (T : Type) where
  status : String
  message : String
  data : T

/-- serde serializes the unit type `()` as JSON `null`. -/
def serializeUnit : Unit → Json := fun _ => .null

/-- serde derive for `ApiResponse<T>`: an object with the fields in
declaration order, `data` via `T`'s serializer. -/
def serializeApiResponse {T : Type} (serT : T → Json) (r : ApiResponse T) : Json :=
  .obj [("status", .str r.status), ("message", .str r.message), ("data", serT r.data)]

/-- `struct HealthResponse \x7b status \x7d` and its serde serialization. -/
def serializeHealth (status : String) : Json :=
  .obj [("status", .str status)]

/-- `root_handler`: status code 200 with the fixed `ApiResponse` body. -/
def root_handler : Nat × Json :=
  (200, serializeApiResponse serializeUnit ⟨"success", "Hello World", ()⟩)

/-- `api_handler`: status code 200 with the fixed `ApiResponse` body. -/
def api_handler : Nat × Json :=
  (200, serializeApiResponse serializeUnit ⟨"success", "Hello API", ()⟩)

/-- `health_handler`: status code 200 with the fixed health body. -/
def health_handler : Nat × Json :=
  (200, serializeHealth "ok")

/-- Drain phase of the process, as seen by a request handler. -/
inductive ShutdownState
  | running
  | shutdownRequested
  | draining
  deriving DecidableEq, Repr

/-- The router of `main`: `/`, `/api` and `/health` mapped to their
handlers, in registration order. -/
def routes : List (String × (Nat × Json)) :=
  [("/", root_handler), ("/api", api_handler), ("/health", health_handler)]

/-- Dispatch of a GET request.  The handlers take no state, so the response
is computed from the path alone; the `ShutdownState` argument records that
dispatch does not consult the drain phase. -/
def handleRequest (_st : ShutdownState) (path : String) : Option (Nat × Json) :=
  routes.lookup path

/- ### The entry point (`main`, lines 52-113) -/

/-- Observable events of one run of `main`. -/
inductive MEvent
  | logBoot
  | warnDbMissing
  | logDbLoaded
  | logListening (port : Nat)
  | bound (port : Nat)
  | served
  | warnServerTerminated
  | logCleanExit
  | aborted
  deriving DecidableEq, Repr

/-- Process outcome of `main`: normal return with an exit code, a panic
(the tokio main task unwound), or running forever. -/
inductive POutcome
  | exit (code : Nat)
  | panicked (e : SigErr)
  | runsForever
  deriving DecidableEq, Repr

/-- The control flow of `main`: fail fast with exit code 1 when
`DATABASE_URL` is absent; otherwise read the port and timeout, bind, and
serve with `shutdown_signal` as the graceful-shutdown future.  A panic in
that future (failed handler installation, raised at its first poll)
unwinds before any request is served; otherwise the serve loop runs and
ends either with an error (`serveErr`, logged as a warning) or by
completing the graceful shutdown, and in both cases `main` falls through
to the clean-exit log line and returns (exit code 0). -/
def mainRun (env : Env) (sch : Schedule) (serveErr : Bool) :
    List MEvent × POutcome :=
  match env "DATABASE_URL" with
  | none => ([.logBoot, .warnDbMissing], .exit 1)
  | some _ =>
    let port := appPort env
    let timeout := shutdownTimeout env
    let pre : List MEvent :=
      [.logBoot, .logDbLoaded, .logListening port, .bound port]
    match shutdownRun sch timeout with
    | .panicked e => (pre ++ [.aborted], .panicked e)
    | .diverge =>
        if serveErr then
          (pre ++ [.served, .warnServerTerminated, .logCleanExit], .exit 0)
        else
          (pre ++ [.served], .runsForever)
    | .ok _ =>
        if serveErr then
          (pre ++ [.served, .warnServerTerminated, .logCleanExit], .exit 0)
        else
          (pre ++ [.served, .logCleanExit], .exit 0)

/- ### Helper lemmas -/

/-- Closed form of a `shutdown_signal` run. -/
theorem shutdownRun_eq (sch : Schedule) (timeout : Nat) :
    shutdownRun sch timeout =
      if !sch.ctrlCInstallOk then .panicked .ctrlCInstallFailed
      else if sch.unixPlatform && !sch.sigtermInstallOk then
        .panicked .sigtermInstallFailed
      else
        match selectTime sch with
        | none => .diverge
        | some t =>
            .ok ⟨t + timeout,
                 [(t, .selectDone), (t, .logDrain timeout), (t, .sleepBegin),
                  (t + timeout, .sleepEnd)]⟩ := by
  by_cases hc : sch.ctrlCInstallOk
  · by_cases hterm : sch.unixPlatform && !sch.sigtermInstallOk
    · simp [shutdownRun, shutdownBody, execProg, execStmt, hc, hterm]
    · cases hsel : selectTime sch with
      | none => simp [shutdownRun, shutdownBody, execProg, execStmt, hc, hterm, hsel]
      | some t =>
          simp [shutdownRun, shutdownBody, execProg, execStmt, hc, hterm, hsel,
                Nat.zero_max]
  · simp [shutdownRun, shutdownBody, execProg, execStmt, hc]

/-- If the select resolves at `u`, some trigger fires at `u`. -/
theorem selectTime_fires {sch : Schedule} {u : Nat} (h : selectTime sch = some u) :
    ∃ tg, FiresAt sch tg u := by
  unfold selectTime at h
  cases hct : sch.ctrlCTime with
  | none =>
      cases hu : sch.unixPlatform with
      | false => simp [hct, hu] at h
      | true =>
          cases hst : sch.sigtermTime with
          | none => simp [hct, hu, hst] at h
          | some b =>
              simp [hct, hu, hst] at h
              exact ⟨.sigterm, FiresAt.sigterm hu (h ▸ hst)⟩
  | some a =>
      cases hu : sch.unixPlatform with
      | false =>
          simp [hct, hu] at h
          exact ⟨.ctrlC, FiresAt.ctrlC (h ▸ hct)⟩
      | true =>
          cases hst : sch.sigtermTime with
          | none =>
              simp [hct, hu, hst] at h
              exact ⟨.ctrlC, FiresAt.ctrlC (h ▸ hct)⟩
          | some b =>
              simp [hct, hu, hst] at h
              rcases Nat.le_total a b with hab | hab
              · exact ⟨.ctrlC, FiresAt.ctrlC (by rw [hct, ← h, min_eq_left hab])⟩
              · exact ⟨.sigterm, FiresAt.sigterm hu (by rw [hst, ← h, min_eq_right hab])⟩

/-- The select resolves no later than any firing trigger. -/
theorem selectTime_le {sch : Schedule} {u : Nat} (h : selectTime sch = some u)
    {tg : Trigger} {t : Nat} (hf : FiresAt sch tg t) : u ≤ t := by
  unfold selectTime at h
  cases hf with
  | ctrlC hct =>
      rw [hct] at h
      cases hsig : (if sch.unixPlatform then sch.sigtermTime else none) with
      | none => rw [hsig] at h; simp at h; omega
      | some b => rw [hsig] at h; simp at h; omega
  | sigterm hu hst =>
      rw [hu] at h
      simp only [if_true] at h
      rw [hst] at h
      cases hct : sch.ctrlCTime with
      | none => rw [hct] at h; simp at h; omega
      | some a => rw [hct] at h; simp at h; omega

/-- If no live trigger ever fires, the select never resolves, and conversely. -/
theorem selectTime_none {sch : Schedule} (h : selectTime sch = none)
    {tg : Trigger} {t : Nat} (hf : FiresAt sch tg t) : False := by
  unfold selectTime at h
  cases hf with
  | ctrlC hct => rw [hct] at h; cases hsig : (if sch.unixPlatform then sch.sigtermTime else none) <;> rw [hsig] at h <;> simp at h
  | sigterm hu hst => rw [hu] at h; simp only [if_true] at h; rw [hst] at h; cases hct : sch.ctrlCTime <;> rw [hct] at h <;> simp at h

/-- With both handler installations succeeding, `shutdown_signal` never
panics. -/
theorem shutdownRun_not_panicked {sch : Schedule} (hc : sch.ctrlCInstallOk = true)
    (hs : sch.unixPlatform = true → sch.sigtermInstallOk = true)
    (timeout : Nat) (e : SigErr) : shutdownRun sch timeout ≠ Res.panicked e := by
  intro h
  have hterm : (sch.unixPlatform && !sch.sigtermInstallOk) = false := by
    cases hu : sch.unixPlatform
    · simp
    · simp [hs hu]
  rw [shutdownRun_eq] at h
  cases hsel : selectTime sch <;> simp [hc, hterm, hsel] at h

/-- The port-bind event of `main` always carries `appPort env` once
`DATABASE_URL` is present. -/
theorem bound_mem_mainRun {env : Env} {d : String}
    (hdb : env "DATABASE_URL" = some d) (sch : Schedule) (serveErr : Bool) :
    MEvent.bound (appPort env) ∈ (mainRun env sch serveErr).1 := by
  cases hr : shutdownRun sch (shutdownTimeout env) <;>
    cases serveErr <;> simp [mainRun, hdb, hr]

/- ### Claim theorems -/

/-- C1: in the shutdown coordinator, the grace-period sleep never begins
before one of the two termination triggers has fired, and the function does
not return before the sleep completes: every completed run consists of the
select resolving at the instant `t` of a firing trigger, the log line and
the beginning of the sleep at that same instant, the end of the sleep at
`t + timeout`, and return at clock `t + timeout`. -/
theorem shutdown_sleep_sequencing (sch : Schedule) (timeout : Nat) (st : St)
    (h : shutdownRun sch timeout = Res.ok st) :
    ∃ t tg, FiresAt sch tg t ∧
      st.events = [(t, Ev.selectDone), (t, Ev.logDrain timeout),
                   (t, Ev.sleepBegin), (t + timeout, Ev.sleepEnd)] ∧
      st.clock = t + timeout := by
  rw [shutdownRun_eq] at h
  by_cases hc : sch.ctrlCInstallOk
  · by_cases hterm : (sch.unixPlatform && !sch.sigtermInstallOk) = true
    · simp [hc, hterm] at h
    · cases hsel : selectTime sch with
      | none => simp [hc, hterm, hsel] at h
      | some t =>
          simp only [hc, hterm, hsel, Bool.not_true, if_false, if_true,
            Bool.not_eq_true] at h
          obtain ⟨tg, hf⟩ := selectTime_fires hsel
          refine ⟨t, tg, hf, ?_, ?_⟩
          · cases h; rfl
          · cases h; rfl
  · simp [hc] at h

/-- Concrete schedule used for the C1 witness: Ctrl+C at instant 2,
SIGTERM at instant 7, unix platform, both installations succeed. -/
def schEx : Schedule := ⟨some 2, some 7, true, true, true⟩

/-- Final state of the C1 witness run. -/
def stEx : St :=
  ⟨7, [(2, .selectDone), (2, .logDrain 5), (2, .sleepBegin), (7, .sleepEnd)]⟩

/-- Witness for C1 at a concrete schedule and timeout. -/
theorem shutdown_sleep_sequencing_witness :
    ∃ t tg, FiresAt schEx tg t ∧
      stEx.events = [(t, Ev.selectDone), (t, Ev.logDrain 5),
                     (t, Ev.sleepBegin), (t + 5, Ev.sleepEnd)] ∧
      stEx.clock = t + 5 :=
  shutdown_sleep_sequencing schEx 5 stEx (by decide)

/-- C2: the select races the Ctrl+C trigger and the SIGTERM trigger and
resolves at the instant of whichever fires first: its resolution instant is
the firing instant of some trigger, is no later than any firing trigger,
and if no live trigger ever fires it never resolves; on a non-unix
platform the SIGTERM branch is the never-completing `pending` future, so
the select resolves exactly when (and only when) Ctrl+C fires. -/
theorem shutdown_select_race (sch : Schedule) :
    (∀ u, selectTime sch = some u → ∃ tg, FiresAt sch tg u) ∧
    (∀ u tg t, selectTime sch = some u → FiresAt sch tg t → u ≤ t) ∧
    (sch.unixPlatform = false → selectTime sch = sch.ctrlCTime) ∧
    (selectTime sch = none → ∀ tg t, ¬ FiresAt sch tg t) := by
  refine ⟨fun u h => selectTime_fires h,
          fun u tg t h hf => selectTime_le h hf,
          ?_,
          fun h tg t hf => selectTime_none h hf⟩
  intro hu
  unfold selectTime
  rw [hu]
  cases hct : sch.ctrlCTime <;> simp

/-- Witness for C2: on a non-unix schedule the select resolves at the
Ctrl+C instant even though SIGTERM would have arrived earlier. -/
theorem shutdown_select_race_witness :
    selectTime ⟨some 5, some 3, false, true, true⟩ = some 5 := by
  have h := (shutdown_select_race ⟨some 5, some 3, false, true, true⟩).2.2.1 rfl
  simpa using h

/-- C3: once a trigger has fired at instant `t`, `shutdown_signal` returns
exactly at `t + shutdownTimeout env`, so the process waits at least the
configured number of seconds and returns no earlier; a present
`GRACEFUL_SHUTDOWN_TIMEOUT` that parses as a `u64` is used as-is, a
missing or unparsable one falls back to the default `10`; and with
timeout `0` the run returns at `t` itself, with no enforced delay. -/
theorem shutdown_timeout_semantics (env : Env) (sch : Schedule) (t : Nat)
    (hc : sch.ctrlCInstallOk = true)
    (hs : sch.unixPlatform = true → sch.sigtermInstallOk = true)
    (ht : selectTime sch = some t) :
    (∃ st, shutdownRun sch (shutdownTimeout env) = Res.ok st ∧
       st.clock = t + shutdownTimeout env) ∧
    (∀ s v, env "GRACEFUL_SHUTDOWN_TIMEOUT" = some s → parseU64Rust s = some v →
       shutdownTimeout env = v) ∧
    (env "GRACEFUL_SHUTDOWN_TIMEOUT" = none → shutdownTimeout env = 10) ∧
    (∀ s, env "GRACEFUL_SHUTDOWN_TIMEOUT" = some s → parseU64Rust s = none →
       shutdownTimeout env = 10) ∧
    (shutdownTimeout env = 0 →
       ∃ st, shutdownRun sch 0 = Res.ok st ∧ st.clock = t) := by
  have hterm : (sch.unixPlatform && !sch.sigtermInstallOk) = false := by
    cases hu : sch.unixPlatform
    · simp
    · simp [hs hu]
  refine ⟨?_, ?_, ?_, ?_, ?_⟩
  · refine ⟨⟨t + shutdownTimeout env,
      [(t, .selectDone), (t, .logDrain (shutdownTimeout env)), (t, .sleepBegin),
       (t + shutdownTimeout env, .sleepEnd)]⟩, ?_, rfl⟩
    rw [shutdownRun_eq]
    simp [hc, hterm, ht]
  · intro s v hsome hv
    simp [shutdownTimeout, hsome, hv]
  · intro hnone
    simp [shutdownTimeout, hnone, show parseU64Rust "10" = some 10 from by decide]
  · intro s hsome hv
    simp [shutdownTimeout, hsome, hv]
  · intro _
    refine ⟨⟨t, [(t, .selectDone), (t, .logDrain 0), (t, .sleepBegin),
      (t, .sleepEnd)]⟩, ?_, rfl⟩
    rw [shutdownRun_eq]
    simp [hc, hterm, ht]

/-- Environment used for the C3 witness: only the drain timeout is set. -/
def envT : Env :=
  fun k => if k = "GRACEFUL_SHUTDOWN_TIMEOUT" then some "3" else none

/-- Witness for C3: with `GRACEFUL_SHUTDOWN_TIMEOUT=3` and a trigger at
instant 1, the run completes at clock 4. -/
theorem shutdown_timeout_semantics_witness :
    ∃ st, shutdownRun ⟨some 1, none, true, true, true⟩ (shutdownTimeout envT) =
      Res.ok st ∧ st.clock = 1 + shutdownTimeout envT := by
  have h := shutdown_timeout_semantics envT ⟨some 1, none, true, true, true⟩ 1
    rfl (fun _ => rfl) (by decide)
  exact h.1

/-- C4: a failed installation of the Ctrl+C handler is fatal: the
`.expect` panics at the first poll of the shutdown future, the process
aborts instead of serving traffic, and it never reaches the clean-exit
log line. -/
theorem ctrlc_install_failure_fatal (env : Env) (sch : Schedule)
    (serveErr : Bool) (d : String) (hdb : env "DATABASE_URL" = some d)
    (hc : sch.ctrlCInstallOk = false) :
    (mainRun env sch serveErr).2 = POutcome.panicked SigErr.ctrlCInstallFailed ∧
    MEvent.served ∉ (mainRun env sch serveErr).1 ∧
    MEvent.logCleanExit ∉ (mainRun env sch serveErr).1 := by
  have hrun : shutdownRun sch (shutdownTimeout env) =
      Res.panicked .ctrlCInstallFailed := by
    rw [shutdownRun_eq]; simp [hc]
  simp [mainRun, hdb, hrun]

/-- Environment used by several witnesses: only `DATABASE_URL` is set. -/
def envD : Env := fun k => if k = "DATABASE_URL" then some "db" else none

/-- Witness for C4 at a schedule whose Ctrl+C installation fails. -/
theorem ctrlc_install_failure_fatal_witness :
    (mainRun envD ⟨some 0, none, true, false, true⟩ false).2 =
      POutcome.panicked SigErr.ctrlCInstallFailed :=
  (ctrlc_install_failure_fatal envD ⟨some 0, none, true, false, true⟩ false
    "db" (by decide) rfl).1

/-- C5: if `DATABASE_URL` is absent the process exits with status 1
without ever binding a listener or serving traffic. -/
theorem missing_database_url_exits_one (env : Env) (sch : Schedule)
    (serveErr : Bool) (h : env "DATABASE_URL" = none) :
    (mainRun env sch serveErr).2 = POutcome.exit 1 ∧
    (∀ p, MEvent.bound p ∉ (mainRun env sch serveErr).1) ∧
    MEvent.served ∉ (mainRun env sch serveErr).1 := by
  simp [mainRun, h]

/-- The empty environment, for the C5 witness. -/
def envEmpty : Env := fun _ => none

/-- Witness for C5 at the empty environment. -/
theorem missing_database_url_exits_one_witness :
    (mainRun envEmpty ⟨some 0, none, true, true, true⟩ false).2 =
      POutcome.exit 1 :=
  (missing_database_url_exits_one envEmpty ⟨some 0, none, true, true, true⟩
    false rfl).1

/-- C6: if the serving loop ends with an error, `main` logs it as a
warning, still reaches the clean-exit log line, and returns with exit
status 0; across all runs, exit status 1 occurs only when the required
`DATABASE_URL` configuration is missing at startup. -/
theorem serve_error_clean_exit (env : Env) (sch : Schedule) (d : String)
    (hdb : env "DATABASE_URL" = some d)
    (hc : sch.ctrlCInstallOk = true)
    (hs : sch.unixPlatform = true → sch.sigtermInstallOk = true) :
    MEvent.warnServerTerminated ∈ (mainRun env sch true).1 ∧
    MEvent.logCleanExit ∈ (mainRun env sch true).1 ∧
    (mainRun env sch true).2 = POutcome.exit 0 ∧
    (∀ (env' : Env) (sch' : Schedule) (serveErr' : Bool),
       (mainRun env' sch' serveErr').2 = POutcome.exit 1 →
       env' "DATABASE_URL" = none) := by
  refine ⟨?_, ?_, ?_, ?_⟩ <;> try
    cases hr : shutdownRun sch (shutdownTimeout env) with
    | ok st => simp [mainRun, hdb, hr]
    | panicked e => exact absurd hr (shutdownRun_not_panicked hc hs _ e)
    | diverge => simp [mainRun, hdb, hr]
  intro env' sch' serveErr' hres
  cases hdb' : env' "DATABASE_URL" with
  | none => rfl
  | some d' =>
      exfalso
      cases hr' : shutdownRun sch' (shutdownTimeout env') <;>
        cases serveErr' <;> simp [mainRun, hdb', hr'] at hres

/-- Witness for C6: serve-loop error at a well-formed environment still
produces exit status 0. -/
theorem serve_error_clean_exit_witness :
    (mainRun envD ⟨some 0, none, true, true, true⟩ true).2 = POutcome.exit 0 :=
  (serve_error_clean_exit envD ⟨some 0, none, true, true, true⟩ "db"
    (by decide) rfl (fun _ => rfl)).2.2.1

/-- C7: the listener is bound on `appPort env`, which equals the parsed
`APP_PORT` value whenever the variable is present and parses as a `u16`,
and equals the default 8080 whenever the variable is missing or fails to
parse. -/
theorem app_port_binding (env : Env) (sch : Schedule) (serveErr : Bool)
    (d : String) (hdb : env "DATABASE_URL" = some d) :
    MEvent.bound (appPort env) ∈ (mainRun env sch serveErr).1 ∧
    (∀ s p, env "APP_PORT" = some s → parseU16Rust s = some p →
       appPort env = p) ∧
    (env "APP_PORT" = none → appPort env = 8080) ∧
    (∀ s, env "APP_PORT" = some s → parseU16Rust s = none →
       appPort env = 8080) := by
  refine ⟨bound_mem_mainRun hdb sch serveErr, ?_, ?_, ?_⟩
  · intro s p hsome hp
    simp [appPort, hsome, hp]
  · intro hnone
    simp [appPort, hnone, show parseU16Rust "8080" = some 8080 from by decide]
  · intro s hsome hp
    simp [appPort, hsome, hp]

/-- Environment for the C7 witness: `DATABASE_URL` set and a valid
`APP_PORT`. -/
def envP : Env :=
  fun k =>
    if k = "DATABASE_URL" then some "db"
    else if k = "APP_PORT" then some "3000" else none

/-- Witness for C7: `APP_PORT=3000` parses and is the bound port. -/
theorem app_port_binding_witness :
    MEvent.bound (appPort envP) ∈
      (mainRun envP ⟨some 0, none, true, true, true⟩ false).1 ∧
    appPort envP = 3000 := by
  have h := app_port_binding envP ⟨some 0, none, true, true, true⟩ false "db"
    (by decide)
  exact ⟨h.1, h.2.1 "3000" 3000 (by decide) (by decide)⟩

/-- C8: for every drain state, GET `/` and GET `/api` answer 200 with the
fixed JSON bodies (`status:"success"`, their respective messages, `data`
null), and GET `/health` answers 200 with body `status:"ok"`; none of the
three consults the shutdown state. -/
theorem handlers_fixed_responses (st : ShutdownState) :
    handleRequest st "/" = some (200, Json.obj
      [("status", Json.str "success"), ("message", Json.str "Hello World"),
       ("data", Json.null)]) ∧
    handleRequest st "/api" = some (200, Json.obj
      [("status", Json.str "success"), ("message", Json.str "Hello API"),
       ("data", Json.null)]) ∧
    handleRequest st "/health" = some (200, Json.obj
      [("status", Json.str "ok")]) := by
  refine ⟨?_, ?_, ?_⟩ <;> rfl

/-- C9: the `data` field of an `ApiResponse<()>` always serializes to JSON
`null`, so the bodies of `/` and `/api` are exactly the three-field object
with `data` null and never carry any other payload. -/
theorem data_field_null :
    (∀ r : ApiResponse Unit, serializeApiResponse serializeUnit r =
       Json.obj [("status", Json.str r.status), ("message", Json.str r.message),
                 ("data", Json.null)]) ∧
    root_handler.2 = Json.obj [("status", Json.str "success"),
      ("message", Json.str "Hello World"), ("data", Json.null)] ∧
    api_handler.2 = Json.obj [("status", Json.str "success"),
      ("message", Json.str "Hello API"), ("data", Json.null)] :=
  ⟨fun _ => rfl, rfl, rfl⟩

/-- A character list starting with a non-digit has no digit value. -/
theorem digitsVal_cons_nondigit {c : Char} (hc : c.isDigit = false)
    (rest : List Char) : digitsVal (c :: rest) = none := by
  simp [digitsVal, hc]

/-- Unfolding of `parseIntSpec` on a non-empty character list. -/
theorem parseIntSpec_cons {c : Char} {rest : List Char} {s : String}
    (hd : s.data = c :: rest) :
    parseIntSpec s =
      if c = '-' then (digitsVal rest).map (fun n : Nat => -(n : Int))
      else if c = '+' then (digitsVal rest).map (fun n : Nat => (n : Int))
      else (digitsVal (c :: rest)).map (fun n : Nat => (n : Int)) := by
  unfold parseIntSpec
  rw [hd]

/-- Unfolding of `parseIntSpec` on the empty string. -/
theorem parseIntSpec_nil {s : String} (hd : s.data = []) :
    parseIntSpec s = none := by
  unfold parseIntSpec
  rw [hd]

/-- C10: any `APP_PORT` string that reads as an integer outside
`0..=65535` fails the `u16` parse (a negative sign is rejected outright,
an overflowing magnitude fails the range check), so the configured port
silently falls back to 8080 and the listener is bound on 8080. -/
theorem out_of_range_port_defaults (s : String) (i : Int)
    (hp : parseIntSpec s = some i) (hout : i < 0 ∨ 65535 < i) :
    parseU16Rust s = none ∧
    (∀ env : Env, env "APP_PORT" = some s → appPort env = 8080) ∧
    (∀ (env : Env) (sch : Schedule) (serveErr : Bool) (d : String),
       env "APP_PORT" = some s → env "DATABASE_URL" = some d →
       MEvent.bound 8080 ∈ (mainRun env sch serveErr).1) := by
  have hnone : parseU16Rust s = none := by
    cases hd : s.data with
    | nil => rw [parseIntSpec_nil hd] at hp; simp at hp
    | cons c rest =>
        rw [parseIntSpec_cons hd] at hp
        by_cases hneg : c = '-'
        · subst hneg
          simp [parseU16Rust, parseUnsigned, stripPlus, hd,
            digitsVal_cons_nondigit (show ('-' : Char).isDigit = false from by decide) rest]
        · by_cases hplus : c = '+'
          · subst hplus
            rw [if_neg (by decide), if_pos rfl] at hp
            obtain ⟨n, hn, hni⟩ := Option.map_eq_some'.mp hp
            subst hni
            have hle : ¬ (n ≤ 65535) := by
              rcases hout with h | h
              · omega
              · omega
            simp [parseU16Rust, parseUnsigned, stripPlus, hd, hn, hle]
          · rw [if_neg hneg, if_neg hplus] at hp
            obtain ⟨n, hn, hni⟩ := Option.map_eq_some'.mp hp
            subst hni
            have hle : ¬ (n ≤ 65535) := by
              rcases hout with h | h
              · omega
              · omega
            simp [parseU16Rust, parseUnsigned, stripPlus, hd, hplus, hn, hle]
  refine ⟨hnone, ?_, ?_⟩
  · intro env henv
    simp [appPort, henv, hnone]
  · intro env sch serveErr d henv hdb
    have h8080 : appPort env = 8080 := by simp [appPort, henv, hnone]
    rw [← h8080]
    exact bound_mem_mainRun hdb sch serveErr

/-- Witness for C10 at the two inputs named by the claim. -/
theorem out_of_range_port_defaults_witness :
    parseU16Rust "70000" = none ∧ parseU16Rust "-1" = none := by
  have h1 := out_of_range_port_defaults "70000" 70000 (by decide)
    (Or.inr (by decide))
  have h2 := out_of_range_port_defaults "-1" (-1) (by decide)
    (Or.inl (by decide))
  exact ⟨h1.1, h2.1⟩
